import Mathlib

/-!
Formal model of `px4tools/analysis.py`.

The module operates on pandas objects.  We embed them shallowly:

* a pandas `Series` is the list of its `(index, value)` samples in order;
  index entries and values are rationals (the numeric domain of the logs,
  idealized from float to `ℚ`);
* a pandas `DataFrame` is an explicit index together with named columns
  (`CFrame` below);
* Python exceptions are `Option`/`Except` results;
* Python dictionaries are association lists updated with `dictInsert`,
  which mirrors `d[k] = v` (overwrite in place, append at the end when
  the key is new);
* the standard-deviation of `statistics` uses `Real.sqrt`, so statistic
  values live in `ℝ`, while everything the control flow branches on
  (column lookup, the measurement period) stays in `ℚ` and is decidable.
-/

namespace PX4Tools

/-- One sample of a pandas time series: an index entry `t` and a value `v`. -/
structure Sample where
  t : ℚ
  v : ℚ
deriving DecidableEq

instance : Inhabited Sample := ⟨⟨0, 0⟩⟩

/-- A pandas Series: the list of its `(index, value)` samples in order. -/
abbrev Series := List Sample

/-- Model of `new_sample(series)` (analysis.py line 477f):
`return series[pl.absolute(series.diff()) > 0]`.
`series.diff()` is NaN at position 0 (and `NaN > 0` is false), and at
position `i ≥ 1` it is `v_i - v_(i-1)`; so the boolean mask keeps sample
`i ≥ 1` exactly when `|v_i - v_(i-1)| > 0`.  Pairing every sample with its
predecessor via `zip` realizes that mask. -/
def new_sample (s : Series) : Series :=
  (s.zip s.tail).filterMap (fun p => if 0 < |p.2.v - p.1.v| then some p.2 else none)

/-- Model of `find_meas_period(series)` (analysis.py lines 486-489):
`new = new_sample(series); return (new.index[-1] - new.index[0]) / len(new)`.
When `new` is empty, `new.index[-1]` raises `IndexError`; the raised
exception is modelled as `none`. -/
def find_meas_period (s : Series) : Option ℚ :=
  let new := new_sample s
  if h : new = [] then none
  else some (((new.getLast h).t - (new.head h).t) / (new.length : ℚ))

/-- Claim-side definition (C10 wording): the samples whose value differs
from the value of the immediately preceding sample. -/
def changedSamples : Series → Series
  | [] => []
  | [_] => []
  | a :: b :: rest => (if b.v ≠ a.v then [b] else []) ++ changedSamples (b :: rest)

theorem new_sample_nil : new_sample [] = [] := rfl

theorem new_sample_single (a : Sample) : new_sample [a] = [] := rfl

theorem new_sample_cons_cons (a b : Sample) (rest : Series) :
    new_sample (a :: b :: rest) =
      (if b.v ≠ a.v then [b] else []) ++ new_sample (b :: rest) := by
  have hzip : (a :: b :: rest).zip (a :: b :: rest).tail
      = (a, b) :: ((b :: rest).zip rest) := rfl
  simp only [new_sample, hzip, List.filterMap_cons]
  by_cases h : b.v = a.v
  · have : ¬ (0 < |b.v - a.v|) := by simp [h]
    simp [h, this]
  · have : 0 < |b.v - a.v| := abs_pos.mpr (sub_ne_zero.mpr h)
    simp [h, this]

theorem new_sample_eq_changedSamples (s : Series) :
    new_sample s = changedSamples s := by
  induction s with
  | nil => rfl
  | cons a s ih =>
    cases s with
    | nil => rfl
    | cons b rest =>
      rw [new_sample_cons_cons, ih]
      rfl

theorem new_sample_sublist_tail (a : Sample) (rest : Series) :
    (new_sample (a :: rest)).Sublist rest := by
  induction rest generalizing a with
  | nil => simp [new_sample]
  | cons b t ih =>
    rw [new_sample_cons_cons]
    by_cases hb : b.v ≠ a.v
    · simpa [hb] using (ih b).cons₂ b
    · simpa [hb] using (ih b).cons b

theorem new_sample_eq_nil_of_const (s : Series)
    (h : ∀ x ∈ s, ∀ y ∈ s, x.v = y.v) : new_sample s = [] := by
  rw [new_sample, List.filterMap_eq_nil_iff]
  rintro ⟨p₁, p₂⟩ hp
  obtain ⟨h₁, h₂⟩ := List.of_mem_zip hp
  have h₂' : p₂ ∈ s := List.mem_of_mem_tail h₂
  have hv : p₂.v = p₁.v := h _ h₂' _ h₁
  simp [hv]

/-- Claim C10: `new_sample` returns exactly the samples whose value differs
from the value of the immediately preceding sample, hence never contains
the first sample of a non-empty series (its output is drawn from the tail),
and `find_meas_period` fails (raises `IndexError`, modelled `none`)
whenever the series values never change. -/
theorem new_sample_spec (s : Series) :
    new_sample s = changedSamples s
    ∧ (∀ a rest, s = a :: rest → (new_sample s).Sublist rest)
    ∧ ((∀ x ∈ s, ∀ y ∈ s, x.v = y.v) → find_meas_period s = none) := by
  refine ⟨new_sample_eq_changedSamples s, ?_, ?_⟩
  · rintro a rest rfl
    exact new_sample_sublist_tail a rest
  · intro h
    have hn := new_sample_eq_nil_of_const s h
    simp [find_meas_period, hn]

/-- Witness for C10 on the concrete constant series `[(0,5), (1,5)]`. -/
theorem new_sample_spec_witness :
    find_meas_period [⟨0, 5⟩, ⟨1, 5⟩] = none :=
  (new_sample_spec [⟨0, 5⟩, ⟨1, 5⟩]).2.2 (by decide)

/-- A pandas DataFrame: a shared index and named columns of values aligned
with that index. -/
structure CFrame where
  index : List ℚ
  cols : List (String × List ℚ)
deriving DecidableEq

/-- Column access `df[key]`: the column as a time series (values paired with the frame's
index), `none` when the column is absent (`KeyError`). -/
def dfGet (df : CFrame) (key : String) : Option Series :=
  (df.cols.lookup key).map (fun vs => (df.index.zip vs).map (fun p => ⟨p.1, p.2⟩))

/-- Python dictionary assignment `d[k] = v`: overwrite an existing entry in
place, append the entry at the end when the key is new. -/
def dictInsert {β : Type} (k : String) (v : β) : List (String × β) → List (String × β)
  | [] => [(k, v)]
  | p :: rest => if p.1 = k then (k, v) :: rest else p :: dictInsert k v rest

theorem lookup_dictInsert {β : Type} (k a : String) (v : β) (d : List (String × β)) :
    (dictInsert k v d).lookup a = if a = k then some v else d.lookup a := by
  induction d with
  | nil =>
    by_cases h : a = k <;>
      simp [dictInsert, List.lookup, h, show (a == k) = decide (a = k) from rfl]
  | cons p rest ih =>
    by_cases hpk : p.1 = k
    · by_cases hak : a = k
      · simp [dictInsert, hpk, List.lookup, hak]
      · have hap : ¬ (a = p.1) := fun h => hak (h.trans hpk)
        simp [dictInsert, hpk, List.lookup, hak, hap,
          show (a == k) = false by simpa using hak,
          show (a == p.1) = false by simpa using hap]
    · by_cases hap : a = p.1
      · have hak : ¬ (a = k) := fun h => hpk (by rw [← hap]; exact h)
        simp [dictInsert, hpk, List.lookup, hap, hak,
          show (a == p.1) = true by simpa using hap]
      · simp [dictInsert, hpk, List.lookup, hap, ih,
          show (a == p.1) = false by simpa using hap]

theorem mem_keys_dictInsert {β : Type} (k a : String) (v : β) (d : List (String × β)) :
    a ∈ (dictInsert k v d).map Prod.fst ↔ a = k ∨ a ∈ d.map Prod.fst := by
  induction d with
  | nil => simp [dictInsert]
  | cons p rest ih =>
    by_cases hpk : p.1 = k
    · subst hpk
      simp [dictInsert]
    · simp only [dictInsert, if_neg hpk, List.map_cons, List.mem_cons, ih]
      tauto

theorem nodup_keys_dictInsert {β : Type} (k : String) (v : β) (d : List (String × β))
    (h : (d.map Prod.fst).Nodup) : ((dictInsert k v d).map Prod.fst).Nodup := by
  induction d with
  | nil => simp [dictInsert]
  | cons p rest ih =>
    simp only [List.map_cons, List.nodup_cons] at h
    by_cases hpk : p.1 = k
    · subst hpk
      simpa [dictInsert] using h
    · simp only [dictInsert, if_neg hpk, List.map_cons, List.nodup_cons]
      refine ⟨?_, ih h.2⟩
      rw [mem_keys_dictInsert]
      rintro (rfl | hmem)
      · exact hpk rfl
      · exact h.1 hmem

/-- Pandas `series.mean()`: the arithmetic mean of the values. -/
def seriesMean (s : Series) : ℚ := (s.map (fun x => x.v)).sum / (s.length : ℚ)

/-- Pandas `series.var()`: the pandas sample variance (`ddof=1`),
`sum((v - mean)^2) / (n - 1)`.  In `statistics` it is only evaluated on
series of length at least 2 (otherwise `find_meas_period` has already
raised), so the `n = 1` division never occurs on a live path. -/
def seriesVar (s : Series) : ℚ :=
  (s.map (fun x => (x.v - seriesMean s) ^ 2)).sum / ((s.length : ℚ) - 1)

/-- The rational quantities of one iteration of the `statistics` loop
(analysis.py lines 423-427) when the `try` block succeeds. -/
structure StatQ where
  mean : ℚ
  var : ℚ
  dt : ℚ
deriving DecidableEq

/-- The `try` block of `statistics` (lines 423-429) for one key:
`df_meas = new_sample(df[key]); dt = find_meas_period(df_meas); ...`.
It raises (`none`) exactly when the column is absent (`KeyError` on
`df[key]`) or `find_meas_period` raises on `df_meas`.  `df_meas.var()` and
`df_meas.mean()` cannot raise after `dt` has been computed. -/
def statCore (df : CFrame) (key : String) : Option StatQ :=
  match dfGet df key with
  | none => none
  | some s =>
    let df_meas := new_sample s
    match find_meas_period df_meas with
    | none => none
    | some dt => some ⟨seriesMean df_meas, seriesVar df_meas, dt⟩

/-- The five entry-name endings written by `statistics` for each key, in
the order of the assignments at lines 438-442. -/
def SUFFIXES : List String := ["_stddev", "_variance", "_mean", "_dt", "_noise_power"]

/-- The value `statistics` stores under `key ++ suffix` (lines 426-442):
on success `stddev = sqrt(var)`, `variance = stddev**2`, `mean`, `dt`,
`noise_power = variance*dt`; in the `except` branch all five are `0`. -/
noncomputable def entryVal (df : CFrame) (key sfx : String) : ℝ :=
  match statCore df key with
  | none => 0
  | some c =>
    if sfx = "_stddev" then Real.sqrt (c.var : ℝ)
    else if sfx = "_variance" then (Real.sqrt (c.var : ℝ)) ^ 2
    else if sfx = "_mean" then (c.mean : ℝ)
    else if sfx = "_dt" then (c.dt : ℝ)
    else (Real.sqrt (c.var : ℝ)) ^ 2 * (c.dt : ℝ)

/-- One iteration of the `for key in keys` loop of `statistics`: the five
dictionary assignments `data[key+'_stddev'] = ...` … `data[key+'_noise_power'] = ...`. -/
noncomputable def statStep (df : CFrame) (data : List (String × ℝ)) (key : String) :
    List (String × ℝ) :=
  SUFFIXES.foldl (fun d sfx => dictInsert (key ++ sfx) (entryVal df key sfx) d) data

/-- Model of `statistics(df, keys)` (analysis.py lines 420-450).  The `plot`
branch only draws a chart and never touches the returned dictionary, so it
is not part of the model. -/
noncomputable def statistics (df : CFrame) (keys : List String) : List (String × ℝ) :=
  keys.foldl (statStep df) []

theorem strApp_cancel {k a b : String} : k ++ a = k ++ b ↔ a = b := by
  constructor
  · intro h
    rw [String.ext_iff] at h ⊢
    simp only [String.data_append] at h
    exact List.append_cancel_left h
  · rintro rfl; rfl

/-- Distinct suffixes produce distinct entry names even across different
keys: the five suffixes end in five distinct characters, so
`k1 ++ s1 = k2 ++ s2` forces `s1 = s2` and then `k1 = k2`. -/
theorem suffix_inj {k1 k2 s1 s2 : String}
    (h1 : s1 ∈ SUFFIXES) (h2 : s2 ∈ SUFFIXES) (h : k1 ++ s1 = k2 ++ s2) :
    k1 = k2 ∧ s1 = s2 := by
  have hd : k1.data ++ s1.data = k2.data ++ s2.data := by
    have := String.ext_iff.mp h
    simpa [String.data_append] using this
  have hlast : s1.data.getLast? = s2.data.getLast? := by
    have e1 : (k1.data ++ s1.data).getLast? = s1.data.getLast?.or k1.data.getLast? :=
      List.getLast?_append
    have e2 : (k2.data ++ s2.data).getLast? = s2.data.getLast?.or k2.data.getLast? :=
      List.getLast?_append
    have hs1 : s1.data ≠ [] := by
      fin_cases h1 <;> simp
    have hs2 : s2.data ≠ [] := by
      fin_cases h2 <;> simp
    have o1 : s1.data.getLast?.or k1.data.getLast? = s1.data.getLast? := by
      cases hg : s1.data.getLast? with
      | none => exact absurd (List.getLast?_eq_none_iff.mp hg) hs1
      | some c => rfl
    have o2 : s2.data.getLast?.or k2.data.getLast? = s2.data.getLast? := by
      cases hg : s2.data.getLast? with
      | none => exact absurd (List.getLast?_eq_none_iff.mp hg) hs2
      | some c => rfl
    calc s1.data.getLast? = (k1.data ++ s1.data).getLast? := by rw [e1, o1]
      _ = (k2.data ++ s2.data).getLast? := by rw [hd]
      _ = s2.data.getLast? := by rw [e2, o2]
  have hs : s1 = s2 := by
    fin_cases h1 <;> fin_cases h2 <;> first | rfl | (exfalso; revert hlast; decide)
  subst hs
  refine ⟨?_, rfl⟩
  rw [String.ext_iff]
  exact List.append_cancel_right hd

theorem lookup_statStep (df : CFrame) (data : List (String × ℝ)) (key a : String) :
    (statStep df data key).lookup a =
      if a = key ++ "_noise_power" then some (entryVal df key "_noise_power")
      else if a = key ++ "_dt" then some (entryVal df key "_dt")
      else if a = key ++ "_mean" then some (entryVal df key "_mean")
      else if a = key ++ "_variance" then some (entryVal df key "_variance")
      else if a = key ++ "_stddev" then some (entryVal df key "_stddev")
      else data.lookup a := by
  simp only [statStep, SUFFIXES, List.foldl_cons, List.foldl_nil]
  rw [lookup_dictInsert, lookup_dictInsert, lookup_dictInsert, lookup_dictInsert,
    lookup_dictInsert]

theorem lookup_statStep_self (df : CFrame) (data : List (String × ℝ)) (key : String)
    {sfx : String} (hs : sfx ∈ SUFFIXES) :
    (statStep df data key).lookup (key ++ sfx) = some (entryVal df key sfx) := by
  rw [lookup_statStep]
  fin_cases hs <;> simp [strApp_cancel]

theorem lookup_statStep_other (df : CFrame) (data : List (String × ℝ)) (key a : String)
    (ha : ∀ sfx ∈ SUFFIXES, a ≠ key ++ sfx) :
    (statStep df data key).lookup a = data.lookup a := by
  rw [lookup_statStep,
    if_neg (ha "_noise_power" (by decide)), if_neg (ha "_dt" (by decide)),
    if_neg (ha "_mean" (by decide)), if_neg (ha "_variance" (by decide)),
    if_neg (ha "_stddev" (by decide))]

theorem lookup_foldl_statStep_frame (df : CFrame) (keys : List String)
    (data : List (String × ℝ)) (a : String)
    (ha : ∀ k ∈ keys, ∀ sfx ∈ SUFFIXES, a ≠ k ++ sfx) :
    (keys.foldl (statStep df) data).lookup a = data.lookup a := by
  induction keys generalizing data with
  | nil => rfl
  | cons k0 rest ih =>
    rw [List.foldl_cons, ih _ (fun k hk => ha k (List.mem_cons_of_mem _ hk)),
      lookup_statStep_other df data k0 a (ha k0 (List.mem_cons_self _ _))]

theorem lookup_foldl_statStep (df : CFrame) (keys : List String)
    (data : List (String × ℝ)) {k sfx : String}
    (hk : k ∈ keys) (hs : sfx ∈ SUFFIXES) :
    (keys.foldl (statStep df) data).lookup (k ++ sfx) = some (entryVal df k sfx) := by
  induction keys generalizing data with
  | nil => cases hk
  | cons k0 rest ih =>
    rw [List.foldl_cons]
    by_cases hkr : k ∈ rest
    · exact ih _ hkr
    · have hk0 : k = k0 := by
        rcases List.mem_cons.mp hk with h | h
        · exact h
        · exact absurd h hkr
      subst hk0
      rw [lookup_foldl_statStep_frame df rest _ _ ?_, lookup_statStep_self df data k hs]
      intro k' hk' sfx' hs' heq
      obtain ⟨hkk, hss⟩ := suffix_inj hs hs' heq
      exact hkr (by rw [hkk]; exact hk')

theorem lookup_statistics (df : CFrame) (keys : List String) {k sfx : String}
    (hk : k ∈ keys) (hs : sfx ∈ SUFFIXES) :
    (statistics df keys).lookup (k ++ sfx) = some (entryVal df k sfx) :=
  lookup_foldl_statStep df keys [] hk hs

theorem lookup_statStep_isSome (df : CFrame) (data : List (String × ℝ)) (key a : String) :
    ((statStep df data key).lookup a).isSome = true
      ↔ (∃ sfx ∈ SUFFIXES, a = key ++ sfx) ∨ (data.lookup a).isSome = true := by
  rw [lookup_statStep]
  split_ifs with h1 h2 h3 h4 h5 <;> simp [SUFFIXES] <;> tauto

theorem lookup_foldl_isSome (df : CFrame) (keys : List String)
    (data : List (String × ℝ)) (a : String) :
    ((keys.foldl (statStep df) data).lookup a).isSome = true
      ↔ (∃ k ∈ keys, ∃ sfx ∈ SUFFIXES, a = k ++ sfx)
        ∨ (data.lookup a).isSome = true := by
  induction keys generalizing data with
  | nil => simp
  | cons k0 rest ih =>
    rw [List.foldl_cons, ih, lookup_statStep_isSome]
    simp only [List.mem_cons]
    constructor
    · rintro (⟨k, hk, hsfx⟩ | (hsfx | hd))
      · exact Or.inl ⟨k, Or.inr hk, hsfx⟩
      · exact Or.inl ⟨k0, Or.inl rfl, hsfx⟩
      · exact Or.inr hd
    · rintro (⟨k, (rfl | hk), hsfx⟩ | hd)
      · exact Or.inr (Or.inl hsfx)
      · exact Or.inl ⟨k, hk, hsfx⟩
      · exact Or.inr (Or.inr hd)

theorem nodup_keys_statStep (df : CFrame) (data : List (String × ℝ)) (key : String)
    (h : (data.map Prod.fst).Nodup) :
    ((statStep df data key).map Prod.fst).Nodup := by
  simp only [statStep, SUFFIXES, List.foldl_cons, List.foldl_nil]
  exact nodup_keys_dictInsert _ _ _ (nodup_keys_dictInsert _ _ _
    (nodup_keys_dictInsert _ _ _ (nodup_keys_dictInsert _ _ _
      (nodup_keys_dictInsert _ _ _ h))))

theorem nodup_keys_statistics (df : CFrame) (keys : List String) :
    ((statistics df keys).map Prod.fst).Nodup := by
  rw [statistics]
  have h : ∀ data : List (String × ℝ), (data.map Prod.fst).Nodup →
      ((keys.foldl (statStep df) data).map Prod.fst).Nodup := by
    induction keys with
    | nil => exact fun data h => h
    | cons k0 rest ih =>
      intro data h
      rw [List.foldl_cons]
      exact ih _ (nodup_keys_statStep df data k0 h)
  exact h [] (by simp)

/-- Claim C1: for every dataframe and key list, `statistics` returns a
dictionary whose entries are exactly `k ++ sfx` for `k` in `keys` and `sfx`
among the five endings `_stddev`, `_variance`, `_mean`, `_dt`,
`_noise_power` — each name at most once, and no other entries. -/
theorem statistics_key_set (df : CFrame) (keys : List String) (name : String) :
    ((statistics df keys).map Prod.fst).Nodup
    ∧ (((statistics df keys).lookup name).isSome = true
        ↔ ∃ k ∈ keys, ∃ sfx ∈ SUFFIXES, name = k ++ sfx) := by
  refine ⟨nodup_keys_statistics df keys, ?_⟩
  rw [statistics, lookup_foldl_isSome]
  simp [List.lookup]

/-- The fixed key list of `find_lpe_gains` (analysis.py lines 453-455). -/
def LPE_KEYS : List String :=
  ["GPS_X", "GPS_Y", "GPS_Z", "GPS_VelN", "GPS_VelE", "GPS_VelD",
   "DIST_Distance", "IMU1_AccX", "IMU1_AccY", "IMU1_AccZ", "SENS_BaroAlt"]

/-- Lookup `stats[name]` inside `find_lpe_gains`: every name indexed there
is `key ++ sfx` for a `key ∈ LPE_KEYS` and one of the five suffixes, so
the entry always exists (the dictionary holds all such names, by
`lookup_statistics`) and the `getD` default is never taken. -/
noncomputable def statAt (df : CFrame) (name : String) : ℝ :=
  ((statistics df LPE_KEYS).lookup name).getD 0

/-- Model of `find_lpe_gains(df)` (analysis.py lines 452-475), the returned `params`
dictionary in literal order.  `pl.array([a, b]).max()` is `max a b`.
Note the source really reads `IMU1_AccX_noise_power` (not
`IMU1_AccY_stddev`) in the `LPE_ACC_XY` entry. -/
noncomputable def find_lpe_gains (df : CFrame) : List (String × ℝ) :=
  [("LPE_LDR_Z", statAt df "DIST_Distance_stddev"),
   ("LPE_BAR_Z", statAt df "SENS_BaroAlt_stddev"),
   ("LPE_ACC_XY", max (statAt df "IMU1_AccX_stddev") (statAt df "IMU1_AccX_noise_power")),
   ("LPE_ACC_Z", statAt df "IMU1_AccZ_stddev"),
   ("LPE_GPS_XY", max (statAt df "GPS_X_stddev") (statAt df "GPS_Y_stddev")),
   ("LPE_GPS_Z", statAt df "GPS_Z_stddev"),
   ("LPE_GPS_VXY", max (statAt df "GPS_VelN_stddev") (statAt df "GPS_VelE_stddev")),
   ("LPE_GPS_VZ", statAt df "GPS_VelD_stddev")]

/-- Claim-side variant of `find_lpe_gains` following the C6 wording: every
horizontal (XY) parameter is the maximum of the standard deviations of the
X-axis and Y-axis channels.  It differs from the code only in the
`LPE_ACC_XY` entry. -/
noncomputable def find_lpe_gains_claim (df : CFrame) : List (String × ℝ) :=
  [("LPE_LDR_Z", statAt df "DIST_Distance_stddev"),
   ("LPE_BAR_Z", statAt df "SENS_BaroAlt_stddev"),
   ("LPE_ACC_XY", max (statAt df "IMU1_AccX_stddev") (statAt df "IMU1_AccY_stddev")),
   ("LPE_ACC_Z", statAt df "IMU1_AccZ_stddev"),
   ("LPE_GPS_XY", max (statAt df "GPS_X_stddev") (statAt df "GPS_Y_stddev")),
   ("LPE_GPS_Z", statAt df "GPS_Z_stddev"),
   ("LPE_GPS_VXY", max (statAt df "GPS_VelN_stddev") (statAt df "GPS_VelE_stddev")),
   ("LPE_GPS_VZ", statAt df "GPS_VelD_stddev")]

/-- Claim C7: `statistics` (with the plot branch disabled — it never
touches the returned dictionary) and `find_lpe_gains` are deterministic:
equal inputs give equal result dictionaries. -/
theorem statistics_deterministic (df₁ df₂ : CFrame) (keys₁ keys₂ : List String)
    (h1 : df₁ = df₂) (h2 : keys₁ = keys₂) :
    statistics df₁ keys₁ = statistics df₂ keys₂
    ∧ find_lpe_gains df₁ = find_lpe_gains df₂ := by
  subst h1
  subst h2
  exact ⟨rfl, rfl⟩

/-- Witness for C7 at a concrete frame and key list. -/
theorem statistics_deterministic_witness :
    statistics ⟨[], []⟩ ["a"] = statistics ⟨[], []⟩ ["a"]
    ∧ find_lpe_gains ⟨[], []⟩ = find_lpe_gains ⟨[], []⟩ :=
  statistics_deterministic ⟨[], []⟩ ⟨[], []⟩ ["a"] ["a"] rfl rfl

/-- Claim C4: when the statistics computation of key `k` succeeds (its
column exists and `find_meas_period` of the changed-sample series does not
raise), the stored entries satisfy `variance = stddev ^ 2`,
`noise_power = variance * dt`, and `dt` is exactly the measurement period
`find_meas_period` computes for the changed-sample series of column `k`. -/
theorem statistics_relations (df : CFrame) (keys : List String) (k : String) (s : Series)
    (hk : k ∈ keys) (hcol : dfGet df k = some s)
    (hdt : find_meas_period (new_sample s) ≠ none) :
    (statistics df keys).lookup (k ++ "_variance")
      = ((statistics df keys).lookup (k ++ "_stddev")).map (fun x => x ^ 2)
    ∧ (statistics df keys).lookup (k ++ "_noise_power")
      = Option.map₂ (fun v d => v * d)
          ((statistics df keys).lookup (k ++ "_variance"))
          ((statistics df keys).lookup (k ++ "_dt"))
    ∧ (statistics df keys).lookup (k ++ "_dt")
      = (find_meas_period (new_sample s)).map (fun q => (q : ℝ)) := by
  obtain ⟨dt0, hdt0⟩ := Option.ne_none_iff_exists'.mp hdt
  have hcore : statCore df k
      = some ⟨seriesMean (new_sample s), seriesVar (new_sample s), dt0⟩ := by
    simp [statCore, hcol, hdt0]
  rw [lookup_statistics df keys hk (show "_variance" ∈ SUFFIXES by decide),
    lookup_statistics df keys hk (show "_stddev" ∈ SUFFIXES by decide),
    lookup_statistics df keys hk (show "_noise_power" ∈ SUFFIXES by decide),
    lookup_statistics df keys hk (show "_dt" ∈ SUFFIXES by decide), hdt0]
  refine ⟨?_, ?_, ?_⟩ <;> simp [entryVal, hcore]

/-- Concrete frame used to instantiate C4. -/
def dfW4 : CFrame := ⟨[0, 10, 20, 40], [("a", [9, 0, 2, 4])]⟩

theorem new_sample_w4 :
    new_sample [⟨0, 9⟩, ⟨10, 0⟩, ⟨20, 2⟩, ⟨40, 4⟩] = [⟨10, 0⟩, ⟨20, 2⟩, ⟨40, 4⟩] := by
  rw [new_sample_eq_changedSamples]
  norm_num [changedSamples]

theorem new_sample_w4' :
    new_sample [⟨10, 0⟩, ⟨20, 2⟩, ⟨40, 4⟩] = [⟨20, 2⟩, ⟨40, 4⟩] := by
  rw [new_sample_eq_changedSamples]
  norm_num [changedSamples]

theorem find_meas_period_w4 :
    find_meas_period [⟨10, 0⟩, ⟨20, 2⟩, ⟨40, 4⟩] = some 10 := by
  rw [find_meas_period]
  simp only [new_sample_w4']
  rw [dif_neg (List.cons_ne_nil _ _)]
  norm_num [List.getLast]

/-- Witness for C4 at `dfW4`, key `"a"`. -/
theorem statistics_relations_witness :
    (statistics dfW4 ["a"]).lookup ("a" ++ "_variance")
      = ((statistics dfW4 ["a"]).lookup ("a" ++ "_stddev")).map (fun x => x ^ 2) :=
  (statistics_relations dfW4 ["a"] "a" [⟨0, 9⟩, ⟨10, 0⟩, ⟨20, 2⟩, ⟨40, 4⟩]
    (by decide) (by decide) (by simp [new_sample_w4, find_meas_period_w4])).1

/-- Claim C8: when the statistics computation of key `k` raises (the
`except Exception` branch at lines 430-437), `statistics` stores 0 for all
five entries of `k`, and the entries of every other key are the ones
`statistics` would compute with `k` removed from the key list. -/
theorem statistics_error_handling (df : CFrame) (keys : List String) (k : String)
    (hk : k ∈ keys) (hfail : statCore df k = none) :
    (∀ sfx ∈ SUFFIXES, (statistics df keys).lookup (k ++ sfx) = some 0)
    ∧ (∀ k' ∈ keys, k' ≠ k → ∀ sfx ∈ SUFFIXES,
        (statistics df keys).lookup (k' ++ sfx)
          = (statistics df (keys.filter (fun x => decide (x ≠ k)))).lookup (k' ++ sfx)) := by
  constructor
  · intro sfx hs
    rw [lookup_statistics df keys hk hs]
    simp [entryVal, hfail]
  · intro k' hk' hne sfx hs
    rw [lookup_statistics df keys hk' hs,
      lookup_statistics df _ (List.mem_filter.mpr ⟨hk', by simpa using hne⟩) hs]

/-- Witness for C8: the empty frame has no column `"a"`, so the `try`
block raises and all five entries of `"a"` are 0. -/
theorem statistics_error_handling_witness :
    (statistics ⟨[], []⟩ ["a"]).lookup ("a" ++ "_mean") = some 0 :=
  (statistics_error_handling ⟨[], []⟩ ["a"] "a" (by decide) rfl).1 "_mean" (by decide)

/-- Concrete frame exhibiting the `LPE_ACC_XY` slip of `find_lpe_gains`:
the X accelerometer has stddev 2 and noise power 40, the Y accelerometer
has stddev 3. -/
def dfBug : CFrame :=
  ⟨[0, 10, 20, 40], [("IMU1_AccX", [9, 0, 2, 4]), ("IMU1_AccY", [9, 0, 3, 6])]⟩

theorem statCore_bug_x : statCore dfBug "IMU1_AccX" = some ⟨2, 4, 10⟩ := by
  have hget : dfGet dfBug "IMU1_AccX"
      = some [⟨0, 9⟩, ⟨10, 0⟩, ⟨20, 2⟩, ⟨40, 4⟩] := by decide
  simp only [statCore, hget, new_sample_w4, find_meas_period_w4]
  norm_num [seriesMean, seriesVar]

theorem new_sample_bug_y :
    new_sample [⟨0, 9⟩, ⟨10, 0⟩, ⟨20, 3⟩, ⟨40, 6⟩] = [⟨10, 0⟩, ⟨20, 3⟩, ⟨40, 6⟩] := by
  rw [new_sample_eq_changedSamples]
  norm_num [changedSamples]

theorem new_sample_bug_y' :
    new_sample [⟨10, 0⟩, ⟨20, 3⟩, ⟨40, 6⟩] = [⟨20, 3⟩, ⟨40, 6⟩] := by
  rw [new_sample_eq_changedSamples]
  norm_num [changedSamples]

theorem find_meas_period_bug_y :
    find_meas_period [⟨10, 0⟩, ⟨20, 3⟩, ⟨40, 6⟩] = some 10 := by
  rw [find_meas_period]
  simp only [new_sample_bug_y']
  rw [dif_neg (List.cons_ne_nil _ _)]
  norm_num [List.getLast]

theorem statCore_bug_y : statCore dfBug "IMU1_AccY" = some ⟨3, 9, 10⟩ := by
  have hget : dfGet dfBug "IMU1_AccY"
      = some [⟨0, 9⟩, ⟨10, 0⟩, ⟨20, 3⟩, ⟨40, 6⟩] := by decide
  simp only [statCore, hget, new_sample_bug_y, find_meas_period_bug_y]
  norm_num [seriesMean, seriesVar]

theorem statAt_bug_x_stddev : statAt dfBug "IMU1_AccX_stddev" = 2 := by
  have hname : ("IMU1_AccX_stddev" : String) = "IMU1_AccX" ++ "_stddev" := by decide
  rw [statAt, hname, lookup_statistics dfBug LPE_KEYS (by decide) (by decide)]
  simp only [entryVal, statCore_bug_x, Option.getD_some]
  norm_num
  rw [show (4 : ℝ) = 2 ^ 2 by norm_num, Real.sqrt_sq (by norm_num)]

theorem statAt_bug_x_noise : statAt dfBug "IMU1_AccX_noise_power" = 40 := by
  have hname : ("IMU1_AccX_noise_power" : String) = "IMU1_AccX" ++ "_noise_power" := by decide
  rw [statAt, hname, lookup_statistics dfBug LPE_KEYS (by decide) (by decide)]
  simp only [entryVal, statCore_bug_x, Option.getD_some]
  norm_num
  rw [if_neg (by decide), if_neg (by decide), if_neg (by decide), if_neg (by decide)]

theorem statAt_bug_y_stddev : statAt dfBug "IMU1_AccY_stddev" = 3 := by
  have hname : ("IMU1_AccY_stddev" : String) = "IMU1_AccY" ++ "_stddev" := by decide
  rw [statAt, hname, lookup_statistics dfBug LPE_KEYS (by decide) (by decide)]
  simp only [entryVal, statCore_bug_y, Option.getD_some]
  norm_num
  rw [show (9 : ℝ) = 3 ^ 2 by norm_num, Real.sqrt_sq (by norm_num)]

/-- Claim C6 / code-bug exhibit: at `dfBug` the code's `LPE_ACC_XY` entry
is `max(AccX stddev, AccX noise power) = max 2 40 = 40`, while the claimed
"maximum of the X- and Y-axis standard deviations" (which is exactly what
the neighbouring `LPE_GPS_XY` and `LPE_GPS_VXY` entries compute) would be
`max 2 3 = 3`. -/
theorem find_lpe_gains_acc_xy_bug :
    (find_lpe_gains dfBug).lookup "LPE_ACC_XY" = some 40
    ∧ (find_lpe_gains_claim dfBug).lookup "LPE_ACC_XY" = some 3 := by
  constructor
  · simp only [find_lpe_gains, List.lookup, statAt_bug_x_stddev, statAt_bug_x_noise,
      (by decide : (("LPE_ACC_XY" : String) == "LPE_LDR_Z") = false),
      (by decide : (("LPE_ACC_XY" : String) == "LPE_BAR_Z") = false)]
    norm_num
  · simp only [find_lpe_gains_claim, List.lookup, statAt_bug_x_stddev, statAt_bug_y_stddev,
      (by decide : (("LPE_ACC_XY" : String) == "LPE_LDR_Z") = false),
      (by decide : (("LPE_ACC_XY" : String) == "LPE_BAR_Z") = false)]
    norm_num

/-- The sensor names of `process_lpe_health` (analysis.py line 514). -/
def NAMES : List String := ["baro", "gps", "lidar", "flow", "sonar", "vision", "mocap"]

/-- Python `int(q)`: truncation toward zero. -/
def intTrunc (q : ℚ) : ℤ := q.num.tdiv (q.den : ℤ)

/-- Python `bool(n & 2**j)` for an integer `n` (two's-complement bit
test): the bit is set iff `n mod 2^(j+1) ≥ 2^j`; Python `%` with a
positive modulus returns a non-negative result, exactly like `Int.emod`. -/
def pyBit (n : ℤ) (j : ℕ) : Bool := decide (2 ^ j ≤ n % 2 ^ (j + 1))

/-- Fault bit `1 if (int(h) & 2**j) else 0` (line 516). -/
def faultBit (q : ℚ) (j : ℕ) : ℚ := if pyBit (intTrunc q) j then 1 else 0

/-- Timeout bit `0 if (int(t) & 2**j) else 1` (line 525). -/
def timeoutBit (q : ℚ) (j : ℕ) : ℚ := if pyBit (intTrunc q) j then 0 else 1

/-- Model of `process_lpe_health(data)` (analysis.py lines 513-533).  Each `try`
block reads one column (`AttributeError` when it is absent), builds the
`n × 7` 0/1 array over `i in range(len(data.index))` (`IndexError` when
the index is empty — `faults[:, i]` on the resulting 1-D empty array — or
when the column is shorter than the index), and on success assigns seven
new columns into `data` in place; each exception is caught and skips only
its own block.  The function returns the argument object itself, mutated. -/
def addCol (df : CFrame) (name : String) (vals : List ℚ) : CFrame :=
  ⟨df.index, dictInsert name vals df.cols⟩

def process_lpe_health (data : CFrame) : CFrame :=
  let n := data.index.length
  let d1 :=
    match data.cols.lookup "EST2_fHealth" with
    | none => data
    | some hv =>
      if n = 0 ∨ hv.length < n then data
      else (List.range 7).foldl (fun d i =>
        addCol d ("fault_" ++ NAMES.getD i "")
          ((List.range n).map (fun r => faultBit (hv.getD r 0) i))) data
  match d1.cols.lookup "EST0_fTOut" with
  | none => d1
  | some tv =>
    if n = 0 ∨ tv.length < n then d1
    else (List.range 7).foldl (fun d i =>
      addCol d ("timeout_" ++ NAMES.getD i "")
        ((List.range n).map (fun r => timeoutBit (tv.getD r 0) i))) d1

/-- The state of the argument `df` after `statistics(df, keys)` returns:
the body of `statistics` (lines 420-450) only reads `df[key]` and
`df.index` and assigns only into its local dictionary `data`, so the
argument is left exactly as it was. -/
def statistics_post (df : CFrame) (_keys : List String) : CFrame := df

/-- Counterexample to C2: `process_lpe_health` does not leave its input
unchanged — on a frame holding an `EST2_fHealth` column it adds the seven
`fault_*` columns to the frame it was handed (the returned frame is the
argument object, mutated in place). -/
theorem process_lpe_health_mutates :
    process_lpe_health ⟨[0], [("EST2_fHealth", [3])]⟩
      ≠ ⟨[0], [("EST2_fHealth", [3])]⟩ := by
  decide

/-- Amended C2: `statistics` leaves its argument unchanged, and
`process_lpe_health` leaves its argument unchanged when neither health
column is present; in general `process_lpe_health` mutates its argument. -/
theorem purity_amended (df : CFrame) (keys : List String)
    (h1 : df.cols.lookup "EST2_fHealth" = none)
    (h2 : df.cols.lookup "EST0_fTOut" = none) :
    statistics_post df keys = df ∧ process_lpe_health df = df := by
  refine ⟨rfl, ?_⟩
  simp only [process_lpe_health, h1, h2]

/-- Witness for the amended C2 at a concrete frame without health columns. -/
theorem purity_amended_witness :
    statistics_post ⟨[0], [("X", [1])]⟩ ["X"] = ⟨[0], [("X", [1])]⟩
    ∧ process_lpe_health ⟨[0], [("X", [1])]⟩ = ⟨[0], [("X", [1])]⟩ :=
  purity_amended ⟨[0], [("X", [1])]⟩ ["X"] (by decide) (by decide)

/-- Order-preserving distinct values, as `pandas.Series.unique`
(line 502). -/
def uniqueVals (l : List ℚ) : List ℚ :=
  l.foldl (fun acc v => if v ∈ acc then acc else acc ++ [v]) []

/-- Model of `background_flight_modes(data)` (analysis.py lines 498-510): for each
distinct value `m` of the `STAT_MainState` series, one `axvspan` from the
index of the first row with mode `m` (`mode.index[0]`) to the index of
the last one (`mode.index[mode.count() - 1]`; `count()` is the number of
entries, all values being defined here).  The observable output is the
list of `(t_min, t_max)` spans; the color and label arguments do not
affect it. -/
def background_flight_modes (s : Series) : List (ℚ × ℚ) :=
  (uniqueVals (s.map (fun x => x.v))).map (fun m =>
    let mode := s.filter (fun x => x.v == m)
    ((mode.headD default).t, (mode.getD (mode.length - 1) default).t))

/-- Claim-side (C3 wording): the maximal contiguous same-mode runs of the
series. -/
def modeRuns : Series → List (List Sample)
  | [] => []
  | a :: rest =>
    match modeRuns rest with
    | [] => [[a]]
    | r :: rs => if (r.headD default).v = a.v then (a :: r) :: rs else [a] :: r :: rs

/-- Claim-side (C3 wording): one span per contiguous same-mode run,
covering exactly the time range of that run. -/
def runSpans (s : Series) : List (ℚ × ℚ) :=
  (modeRuns s).map (fun r => ((r.headD default).t, (r.getLastD default).t))

/-- Counterexample to C3 at the mode series `0, 1, 0` (times `0, 1, 2`,
`STAT_MainState` defined on every row): the claim predicts three spans
`(0,0), (1,1), (2,2)`, one per contiguous run, but the code draws one span
per distinct value — `(0,2)` for mode 0 and `(1,1)` for mode 1 — and the
span `(0,2)` covers time 1, where mode 1 is active. -/
theorem background_flight_modes_merges_runs :
    background_flight_modes [⟨0, 0⟩, ⟨1, 1⟩, ⟨2, 0⟩]
        ≠ runSpans [⟨0, 0⟩, ⟨1, 1⟩, ⟨2, 0⟩]
    ∧ background_flight_modes [⟨0, 0⟩, ⟨1, 1⟩, ⟨2, 0⟩] = [(0, 2), (1, 1)]
    ∧ runSpans [⟨0, 0⟩, ⟨1, 1⟩, ⟨2, 0⟩] = [(0, 0), (1, 1), (2, 2)] := by
  refine ⟨?_, ?_, ?_⟩ <;> decide

/-- Time of the first row whose mode is `m`. -/
def firstTimeOf (s : Series) (m : ℚ) : ℚ :=
  ((s.find? (fun x => x.v == m)).getD default).t

/-- Time of the last row whose mode is `m`. -/
def lastTimeOf (s : Series) (m : ℚ) : ℚ :=
  ((s.reverse.find? (fun x => x.v == m)).getD default).t

/-- Amended C3: `background_flight_modes` overlays exactly one span per
distinct mode value, stretching from that mode's first occurrence to its
last occurrence; when a mode occurs in non-adjacent runs its single span
also covers times at which other modes are active. -/
theorem background_flight_modes_span_spec (s : Series) :
    background_flight_modes s
      = (uniqueVals (s.map (fun x => x.v))).map
          (fun m => (firstTimeOf s m, lastTimeOf s m)) := by
  rw [background_flight_modes]
  refine List.map_congr_left ?_
  intro m hm
  dsimp only
  have hhead : ((s.filter (fun x => x.v == m)).headD default).t = firstTimeOf s m := by
    rw [List.headD_eq_head?_getD, List.filter_head?, firstTimeOf]
  have hlast : ((s.filter (fun x => x.v == m)).getD
      ((s.filter (fun x => x.v == m)).length - 1) default).t = lastTimeOf s m := by
    rw [List.getD_eq_getElem?_getD, ← List.getLast?_eq_getElem?,
      List.getLast?_eq_head?_reverse, ← List.filter_reverse, List.filter_head?,
      lastTimeOf]
  rw [hhead, hlast]

/-- One row of the frame as `get_auto_data` reads it: the three columns
the function touches (a value is `none` when the cell is NaN or
non-finite) plus the values of the remaining columns. -/
structure ARow where
  stat_main : Option ℚ
  gpsp_lat : Option ℚ
  gpsp_lon : Option ℚ
  rest : List ℚ
deriving DecidableEq

/-- Model of `get_auto_data(data)` (analysis.py lines 134-143): three successive
boolean-mask row filters — `STAT_MainState == 3` (a NaN never compares
equal to 3), finite `GPSP_Lat`, finite `GPSP_Lon` — then
`RuntimeError('no auto mode detected')` when no row is left. -/
def get_auto_data (data : List ARow) : Except String (List ARow) :=
  let d1 := data.filter (fun r => r.stat_main == some 3)
  let d2 := d1.filter (fun r => r.gpsp_lat.isSome)
  let d3 := d2.filter (fun r => r.gpsp_lon.isSome)
  if d3.length = 0 then Except.error "no auto mode detected"
  else Except.ok d3

/-- The conjunction of the three row conditions of `get_auto_data`. -/
def isAutoRow (r : ARow) : Bool :=
  (r.stat_main == some 3) && r.gpsp_lat.isSome && r.gpsp_lon.isSome

theorem get_auto_data_filter (data : List ARow) :
    ((data.filter (fun r => r.stat_main == some 3)).filter
        (fun r => r.gpsp_lat.isSome)).filter (fun r => r.gpsp_lon.isSome)
      = data.filter isAutoRow := by
  rw [List.filter_filter, List.filter_filter]
  refine List.filter_congr ?_
  intro r hr
  simp only [isAutoRow]
  exact (by decide : ∀ a b c : Bool, (c && b && a) = (a && b && c)) _ _ _

/-- Claim C9: `get_auto_data` raises `RuntimeError('no auto mode
detected')` iff no row satisfies all three conditions (`STAT_MainState`
equal to 3, finite `GPSP_Lat`, finite `GPSP_Lon`); otherwise it returns
exactly the rows satisfying them, in their original order. -/
theorem get_auto_data_spec (data : List ARow) :
    (get_auto_data data = Except.error "no auto mode detected"
      ↔ ∀ r ∈ data, isAutoRow r = false)
    ∧ ((∃ r ∈ data, isAutoRow r = true)
        → get_auto_data data = Except.ok (data.filter isAutoRow)) := by
  have hf := get_auto_data_filter data
  constructor
  · constructor
    · intro h
      by_cases hlen : (data.filter isAutoRow).length = 0
      · intro r hr
        have hnil : data.filter isAutoRow = [] := List.length_eq_zero.mp hlen
        have := List.filter_eq_nil_iff.mp hnil r hr
        simpa using this
      · exfalso
        rw [get_auto_data] at h
        simp only [hf, if_neg hlen] at h
        exact Except.noConfusion h
    · intro hall
      have hnil : data.filter isAutoRow = [] := by
        rw [List.filter_eq_nil_iff]
        intro r hr
        simp [hall r hr]
      rw [get_auto_data]
      rw [hf, hnil]
      rfl
  · rintro ⟨r, hr, htrue⟩
    have hmem : r ∈ data.filter isAutoRow := List.mem_filter.mpr ⟨hr, htrue⟩
    have hlen : (data.filter isAutoRow).length ≠ 0 := by
      intro h0
      rw [List.length_eq_zero.mp h0] at hmem
      cases hmem
    rw [get_auto_data]
    simp only [hf, if_neg hlen]

/-- Witness for C9: one auto-mode row with finite setpoints is returned. -/
theorem get_auto_data_spec_witness :
    get_auto_data [⟨some 3, some 1, some 2, []⟩]
      = Except.ok ([⟨some 3, some 1, some 2, []⟩].filter isAutoRow) :=
  (get_auto_data_spec [⟨some 3, some 1, some 2, []⟩]).2
    ⟨⟨some 3, some 1, some 2, []⟩, by decide, by decide⟩

/-- Model of `get_float_data(dataframe)` (analysis.py lines 126-132): rows are
masked on `isfinite(TIME_StartTime)` and columns on float-castability;
with every cell a finite rational both masks are all-true and the frame
passes through unchanged, while a frame without `TIME_StartTime` raises
(`AttributeError` on `dataframe.TIME_StartTime`, uncaught). -/
def get_float_data (df : CFrame) : Option CFrame :=
  match df.cols.lookup "TIME_StartTime" with
  | none => none
  | some _ => some df

/-- Model of `set_time_series(data)` (analysis.py lines 145-153): a new frame with
the same column values, indexed by
`t = (TIME_StartTime - TIME_StartTime[0]) / 1.0e6`; raises when
`TIME_StartTime` is absent (`KeyError`) or empty (`values[0]`). -/
def set_time_series (data : CFrame) : Option CFrame :=
  match data.cols.lookup "TIME_StartTime" with
  | none => none
  | some ts =>
    match ts with
    | [] => none
    | t0 :: _ => some ⟨ts.map (fun x => (x - t0) / 1000000), data.cols⟩

/-- Model of `process_data(data)` (analysis.py line 155f):
`set_time_series(get_float_data(data))`. -/
def process_data (data : CFrame) : Option CFrame :=
  (get_float_data data).bind set_time_series

/-- The kind of Python value a function of the module returns. -/
inductive PyValue where
  | noneVal : PyValue
  | dict : List (String × ℝ) → PyValue
  | frame : CFrame → PyValue
  | series : Series → PyValue
  | raised : PyValue

/-- Is the value `None` or a dictionary (the only return kinds the C5
sentence allows)? -/
def isNoneOrDict : PyValue → Bool
  | PyValue.noneVal => true
  | PyValue.dict _ => true
  | _ => false

def isDict : PyValue → Bool
  | PyValue.dict _ => true
  | _ => false

/-- What `process_data` returns: a dataframe on success. -/
def process_data_result (df : CFrame) : PyValue :=
  match process_data df with
  | none => PyValue.raised
  | some r => PyValue.frame r

/-- What `statistics` returns: always a dictionary. -/
noncomputable def statistics_result (df : CFrame) (keys : List String) : PyValue :=
  PyValue.dict (statistics df keys)

/-- What `new_sample` returns: a series. -/
def new_sample_result (s : Series) : PyValue := PyValue.series (new_sample s)

/-- Concrete frame for the C5 counterexample. -/
def dfPD : CFrame := ⟨[0, 1], [("TIME_StartTime", [0, 2000000])]⟩

/-- Counterexample to C5: `process_data` returns a dataframe — here
explicitly the re-indexed frame — and `new_sample` returns a series;
neither result is `None` or a dictionary. -/
theorem process_data_returns_frame :
    isNoneOrDict (process_data_result dfPD) = false
    ∧ process_data_result dfPD
        = PyValue.frame ⟨[0, 2], [("TIME_StartTime", [0, 2000000])]⟩
    ∧ isNoneOrDict (new_sample_result [⟨0, 1⟩, ⟨1, 2⟩]) = false := by
  have hl : List.lookup "TIME_StartTime" [("TIME_StartTime", ([0, 2000000] : List ℚ))]
      = some [0, 2000000] := by decide
  have hpd : process_data dfPD = some ⟨[0, 2], [("TIME_StartTime", [0, 2000000])]⟩ := by
    simp only [process_data, get_float_data, set_time_series, dfPD, hl, Option.bind]
    norm_num
  refine ⟨?_, ?_, rfl⟩
  · rw [process_data_result, hpd]
    rfl
  · rw [process_data_result, hpd]

/-- Amended C5: `statistics` does return a dictionary, but the module's
data-processing helpers break the "dataframe in, `None`-or-dict out"
shape: `process_data` returns a dataframe (or raises) and `new_sample`
returns a series. -/
theorem module_return_kinds (df : CFrame) (keys : List String) (s : Series) :
    isDict (statistics_result df keys) = true
    ∧ (process_data_result df = PyValue.raised
        ∨ ∃ f, process_data_result df = PyValue.frame f)
    ∧ (∃ r, new_sample_result s = PyValue.series r) := by
  refine ⟨rfl, ?_, ⟨new_sample s, rfl⟩⟩
  rcases hpd : process_data df with _ | r
  · exact Or.inl (by rw [process_data_result, hpd])
  · exact Or.inr ⟨r, by rw [process_data_result, hpd]⟩

end PX4Tools
